import Mathlib

/-!
Verification development for the adaptive training simulator
(`data-qa-assistant`): a shallow embedding of its Adaptive Scenario &
Scoring Engine — `TrainingEngine.generate_scenario`,
`TrainingEngine.evaluate_response`, `TrainingEngine.get_adaptive_difficulty`
(src/utils/training_engine.py), `DatabaseHandler.get_user_performance`
(src/main.py) and `ScenarioGenerator.get_scenario`
(src/utils/scenario_generator.py) — together with theorems settling the
spec's claims about them.

Python dictionaries produced from JSON are modelled as association lists
`Obj := List (String × JVal)` with insertion-order preserving update
(`dset`), Python exceptions as `Except PyErr`, the opaque OpenAI judge
call (`openai.ChatCompletion.create` followed by `json.loads`) as an
`Except String Obj` parameter (an `.error` covers a network/timeout/API
failure as well as an unparsable reply, carrying the exception's message),
and `random.randint` / `random.choice` as injected numeric parameters.
Numbers are rationals, matching Python's exact int/fraction arithmetic on
the small score values involved.
-/

/-- A JSON value as the judge service or the scenario catalog produces it:
a number, a string, or a list of strings (the `suggestions` field). -/
inductive JVal where
  | num (q : ℚ)
  | str (s : String)
  | arr (xs : List String)
deriving DecidableEq, Repr

/-- A Python dict (string keys, insertion ordered), as parsed from JSON. -/
abbrev Obj : Type := List (String × JVal)

/-- Dict read `o[k]` / `o.get(k)`: the value at key `k`, if present. -/
def dget (o : Obj) (k : String) : Option JVal :=
  o.lookup k

/-- Dict write `d[k] = v` for a string-keyed dict of any value type:
replace the value in place when the key exists (keeping its position, as
Python dicts do), otherwise append the new key. -/
def aset {α : Type} (l : List (String × α)) (k : String) (v : α) : List (String × α) :=
  if (l.lookup k).isSome then
    l.map (fun p => if p.1 = k then (k, v) else p)
  else
    l ++ [(k, v)]

/-- Dict write `o[k] = v` on a JSON object. -/
def dset (o : Obj) (k : String) (v : JVal) : Obj :=
  aset o k v

/-- The Python exceptions the embedded code can raise. -/
inductive PyErr where
  | valueError
  | indexError
  | zeroDivisionError
deriving DecidableEq, Repr

/-- A persona row loaded from the `personas` table: the fields
`generate_scenario` reads (`p['name']`, `p['profile']`). -/
structure Persona where
  name : String
  profile : String
deriving DecidableEq, Repr

/-- `TrainingEngine.generate_scenario(persona_name, difficulty)`
(src/utils/training_engine.py lines 29-79). `personas` is the loaded
persona list, `judge` the result of the OpenAI call plus `json.loads`
on its reply, `rid` the random draw behind `random.randint(1000, 9999)`
(modelled as `1000 + rid % 9000`). The unknown-persona path returns the
dict `{"error": "Persona not found"}`; the success path stamps
`persona`, `difficulty` and `id` onto the parsed reply; the except path
returns the degraded scenario dict (which carries no `id`). No path
raises, hence the result is always `Except.ok`. -/
def generate_scenario (personas : List Persona) (persona_name difficulty : String)
    (judge : Except String Obj) (rid : ℕ) : Except PyErr Obj :=
  match personas.find? (fun p => p.name = persona_name) with
  | none => .ok [("error", .str "Persona not found")]
  | some _ =>
    match judge with
    | .ok scenario_data =>
      .ok (dset (dset (dset scenario_data
            "persona" (.str persona_name))
            "difficulty" (.str difficulty))
            "id" (.num (1000 + (rid % 9000 : ℕ))))
    | .error e =>
      .ok [("description", .str ("Error generating scenario: " ++ e)),
           ("customer_dialogue", .str "Technical error occurred"),
           ("challenge", .str "System error"),
           ("learning_outcome", .str "Retry scenario generation"),
           ("persona", .str persona_name),
           ("difficulty", .str difficulty)]

/-- The scenario fields `evaluate_response` reads when building its prompt
and saving the result (`scenario['description']`,
`scenario['customer_dialogue']`, and in `_save_training_result`
`scenario['persona']`, `scenario['difficulty']`). -/
structure Scenario where
  description : String
  customer_dialogue : String
  persona : String
  difficulty : String
deriving DecidableEq, Repr

/-- `TrainingEngine.evaluate_response(scenario, user_response)`
(src/utils/training_engine.py lines 81-126). On a parsed judge reply the
dict is returned verbatim (after `_save_training_result`, which swallows
its own errors and persists nothing); when the call or `json.loads`
raises, the except branch returns the neutral all-3 evaluation whose
feedback names the failure. Total: the function never raises. -/
def evaluate_response (scenario : Scenario) (user_response : String)
    (judge : Except String Obj) : Obj :=
  match judge with
  | .ok evaluation => evaluation
  | .error e =>
      [("accuracy", .num 3),
       ("application", .num 3),
       ("communication", .num 3),
       ("adaptability", .num 3),
       ("feedback", .str ("Error in evaluation: " ++ e)),
       ("suggestions", .arr ["Please try again", "Technical error occurred"])]

/-- The four rubric dimensions of an Evaluation. -/
def dimensions : List String :=
  ["accuracy", "application", "communication", "adaptability"]

/-- An optional field value holding an integer in the closed range [1,5]
(a rational with denominator 1 between 1 and 5). -/
def isIntScoreIn15 : Option JVal → Prop
  | some (.num q) => q.den = 1 ∧ 1 ≤ q ∧ q ≤ 5
  | _ => False

instance : ∀ v, Decidable (isIntScoreIn15 v)
  | some (.num _) => by unfold isIntScoreIn15; infer_instance
  | some (.str _) => by unfold isIntScoreIn15; infer_instance
  | some (.arr _) => by unfold isIntScoreIn15; infer_instance
  | none => by unfold isIntScoreIn15; infer_instance

/-- The spec's §4.3 repair property for a produced Evaluation, written from
the spec's words (for comparison with what `evaluate_response` does):
every dimension field holds an integer in the closed range [1,5]. -/
def specClamped (ev : Obj) : Prop :=
  ∀ d ∈ dimensions, isIntScoreIn15 (dget ev d)

instance (ev : Obj) : Decidable (specClamped ev) :=
  List.decidableBAll (fun d => isIntScoreIn15 (dget ev d)) dimensions

/-! ## Adaptive difficulty controller (`TrainingEngine.get_adaptive_difficulty`) -/

/-- The fixed ladder, as the two `difficulty_levels` literals in
`get_adaptive_difficulty` spell it. -/
def difficulty_levels : List String :=
  ["Easy", "Medium", "Hard", "Expert"]

/-- Python's `list.index(x)`: the first index of `x`, raising `ValueError`
when `x` is absent. -/
def listIndex (l : List String) (x : String) : Except PyErr ℕ :=
  match l.findIdx? (fun y => y = x) with
  | some i => .ok i
  | none => .error .valueError

/-- The `scores` column of one `training_sessions` row as the query
`select('scores')` returns it: `null`, or a JSON object of numeric
dimension scores (an association list). -/
abbrev ScoresRow := Option (List (String × ℚ))

/-- The body of `get_adaptive_difficulty`'s loop over `history.data`: a falsy
`scores` (null or the empty dict) is skipped, any other row contributes
`sum(session['scores'].values()) / len(session['scores'])`. -/
def rowScore (s : ScoresRow) : Option ℚ :=
  match s with
  | none => none
  | some scores =>
    if scores.isEmpty then none
    else some ((scores.map (fun p => p.2)).sum / (scores.length : ℚ))

/-- `TrainingEngine.get_adaptive_difficulty(user_id, current_difficulty)`
(src/utils/training_engine.py lines 145-173). `db` stands for the rows of
`training_sessions` for this user in the store's order; the query takes
the first 5 (`limit(5)`). A row whose `scores` is `null` or the empty
dict is falsy in `if session['scores']:` and is skipped; otherwise the
row contributes the mean of its dict's values. `list.index` raises
`ValueError` on a string outside the ladder (only reachable in the two
transition branches); `max(current_index - 1, 0)` coincides with
truncated `ℕ` subtraction. -/
def get_adaptive_difficulty (db : List ScoresRow) (current_difficulty : String) :
    Except PyErr String :=
  let historyData := db.take 5
  if historyData.isEmpty then .ok current_difficulty
  else
    let total_scores := historyData.filterMap rowScore
    if total_scores.isEmpty then .ok current_difficulty
    else
      let avg_performance := total_scores.sum / (total_scores.length : ℚ)
      if avg_performance ≥ 4.5 ∧ current_difficulty ≠ "Expert" then
        (listIndex difficulty_levels current_difficulty).map
          (fun current_index => difficulty_levels.getD (min (current_index + 1) 3) "")
      else if avg_performance < 3.0 ∧ current_difficulty ≠ "Easy" then
        (listIndex difficulty_levels current_difficulty).map
          (fun current_index => difficulty_levels.getD (max (current_index - 1) 0) "")
      else .ok current_difficulty

/-- One level above, per the spec's ladder Easy < Medium < Hard < Expert. -/
def levelUp : String → String
  | "Easy" => "Medium"
  | "Medium" => "Hard"
  | "Hard" => "Expert"
  | s => s

/-- One level below, per the spec's ladder Easy < Medium < Hard < Expert. -/
def levelDown : String → String
  | "Expert" => "Hard"
  | "Hard" => "Medium"
  | "Medium" => "Easy"
  | s => s

/-- The controller exactly as claim C2 words it: window = most recent 5
evaluations, `avgPerformance` = mean over the window of each evaluation's
mean across its four dimension scores, threshold transitions clamped at
the ladder's ends. Written from the claim, to be compared with
`get_adaptive_difficulty`. -/
def nextDifficulty_claim (history : List (List (String × ℚ))) (current : String) : String :=
  let window := history.take 5
  if window.isEmpty then current
  else
    let avgPerformance :=
      (window.map (fun e => (e.map (fun p => p.2)).sum / 4)).sum / (window.length : ℚ)
    if avgPerformance ≥ 4.5 ∧ current ≠ "Expert" then levelUp current
    else if avgPerformance < 3.0 ∧ current ≠ "Easy" then levelDown current
    else current

/-! ## Session aggregator (`DatabaseHandler.get_user_performance`) -/

/-- One `training_sessions` row as `get_user_performance` reads it:
`total_score` may be absent (`s.get("total_score", 0)` then defaults it
to 0), `scores` is the parsed JSON of the scores column (a missing or
empty column parses to the empty dict), `completed_at` orders
`recent_sessions`. -/
structure SessionRow where
  total_score : Option ℚ
  scores : List (String × ℚ)
  completed_at : String
deriving DecidableEq, Repr

/-- `s.get("total_score", 0)`. -/
def totalScoreOf (s : SessionRow) : ℚ :=
  s.total_score.getD 0

/-- Python's `max` over a list of the rows' total scores (`max(... for s
in sessions)`); the empty case never arises because `get_user_performance`
returns early on an empty session list, Python would raise there. -/
def listMax : List ℚ → ℚ
  | [] => 0
  | x :: xs => xs.foldl max x

/-- One step of the `scores_by_category` accumulation: append `score` to
the list at key `category`, creating the key if absent (Python
`dict.setdefault`-style growth in insertion order). -/
def addCategoryScore (acc : List (String × List ℚ)) (category : String) (score : ℚ) :
    List (String × List ℚ) :=
  if (acc.lookup category).isSome then
    acc.map (fun p => if p.1 = category then (p.1, p.2 ++ [score]) else p)
  else
    acc ++ [(category, [score])]

/-- The per-category score lists collected by the double loop of
`get_user_performance` (in session order, then key order within a row). -/
def categoryLists (sessions : List SessionRow) : List (String × List ℚ) :=
  sessions.foldl (fun acc s => s.scores.foldl (fun a p => addCategoryScore a p.1 p.2) acc) []

/-- `"scores_by_category"` after the final averaging loop. -/
def scoresByCategory (sessions : List SessionRow) : List (String × ℚ) :=
  (categoryLists sessions).map (fun p => (p.1, p.2.sum / (p.2.length : ℚ)))

/-- `quarter = len(sessions) // 4`. -/
def quartileSize (sessions : List SessionRow) : ℕ :=
  sessions.length / 4

/-- Mean total score of `sessions[:quarter]`. -/
def earlyAvg (sessions : List SessionRow) : ℚ :=
  ((sessions.take (quartileSize sessions)).map totalScoreOf).sum / (quartileSize sessions : ℚ)

/-- Mean total score of `sessions[-quarter:]`. -/
def recentAvg (sessions : List SessionRow) : ℚ :=
  ((sessions.drop (sessions.length - quartileSize sessions)).map totalScoreOf).sum /
    (quartileSize sessions : ℚ)

/-- The performance dict `get_user_performance` builds (src/main.py lines
199-227). -/
structure Performance where
  total_sessions : ℕ
  avg_score : ℚ
  best_score : ℚ
  improvement_rate : ℚ
  scores_by_category : List (String × ℚ)
  recent_sessions : List SessionRow
deriving DecidableEq, Repr

/-- The body of the `try` block of
`DatabaseHandler.get_user_performance(user_id)` (src/main.py lines
190-231): `.ok none` models `return {}` on an empty session list;
`.error .zeroDivisionError` models the uncaught
`((recent_avg - early_avg) / early_avg)` when `early_avg` is 0 (Python
raises there and the surrounding `except` discards the whole dict). -/
def get_user_performance_core (sessions : List SessionRow) :
    Except PyErr (Option Performance) :=
  if sessions.isEmpty then .ok none
  else
    let base : Performance :=
      { total_sessions := sessions.length
        avg_score := (sessions.map totalScoreOf).sum / (sessions.length : ℚ)
        best_score := listMax (sessions.map totalScoreOf)
        improvement_rate := 0
        scores_by_category := scoresByCategory sessions
        recent_sessions :=
          (sessions.mergeSort (fun a b => b.completed_at ≤ a.completed_at)).take 5 }
    if 4 ≤ sessions.length then
      if earlyAvg sessions = 0 then .error .zeroDivisionError
      else
        .ok (some { base with
          improvement_rate :=
            ((recentAvg sessions - earlyAvg sessions) / earlyAvg sessions) * 100 })
    else .ok (some base)

/-- `DatabaseHandler.get_user_performance` as the caller sees it: the
`except` clause turns any raised exception into `return {}` (after
`st.error`). `none` stands for the empty dict. -/
def get_user_performance (sessions : List SessionRow) : Option Performance :=
  match get_user_performance_core sessions with
  | .ok r => r
  | .error _ => none

/-! ## Scenario catalog (`ScenarioGenerator`, src/utils/scenario_generator.py) -/

/-- The catalog's state: persona name → difficulty name → list of template
dicts, as nested Python dicts/lists. -/
abbrev Db := List (String × List (String × List Obj))

/-- `ScenarioGenerator.__init__`'s `self.scenarios_db` literal
(src/utils/scenario_generator.py lines 7-92). -/
def scenarios_db : Db :=
  [("Bargain Hunter",
    [("Easy",
      [[("description", .str "A customer is looking at a discounted shirt but wants an additional discount"),
        ("customer_dialogue", .str "This shirt is already 30% off, but I saw it cheaper online. Can you match that price?"),
        ("challenge", .str "Price objection handling"),
        ("learning_outcome", .str "Learn to handle price objections while maintaining value proposition")],
       [("description", .str "Customer comparing multiple similar products by price only"),
        ("customer_dialogue", .str "These two shirts look the same to me. Why is this one â‚¹200 more expensive?"),
        ("challenge", .str "Value differentiation"),
        ("learning_outcome", .str "Communicate product value beyond just price")]]),
     ("Medium",
      [[("description", .str "Customer wants to negotiate bulk discount for family shopping"),
        ("customer_dialogue", .str "I'm buying for my whole family today. What kind of bulk discount can you offer?"),
        ("challenge", .str "Negotiation and bundle selling"),
        ("learning_outcome", .str "Handle bulk purchase negotiations professionally")]]),
     ("Hard",
      [[("description", .str "Aggressive price negotiator threatening to leave"),
        ("customer_dialogue", .str "Your competitor is offering 50% off everything. I'll leave right now unless you can beat that."),
        ("challenge", .str "Aggressive negotiation tactics"),
        ("learning_outcome", .str "Handle high-pressure situations while protecting margins")]])]),
   ("Overwhelmed Parent",
    [("Easy",
      [[("description", .str "Parent with crying child needs quick clothing solution"),
        ("customer_dialogue", .str "I need school uniforms for my son quickly. He's getting restless. What do you have in size 8?"),
        ("challenge", .str "Time-pressured service"),
        ("learning_outcome", .str "Provide efficient service under time pressure")]]),
     ("Medium",
      [[("description", .str "Parent shopping for multiple children with different needs"),
        ("customer_dialogue", .str "I need clothes for three kids - school wear for one, party dress for another, and casual wear for the third. Where do I start?"),
        ("challenge", .str "Complex multi-need situations"),
        ("learning_outcome", .str "Organize and prioritize multiple customer needs")]]),
     ("Hard",
      [[("description", .str "Frustrated parent with budget constraints and picky children"),
        ("customer_dialogue", .str "My daughter hates everything I pick, my budget is tight, and we need clothes today. This is impossible!"),
        ("challenge", .str "Managing stress and constraints"),
        ("learning_outcome", .str "Handle emotionally charged situations with empathy")]])]),
   ("Trend-Seeking Influencer",
    [("Easy",
      [[("description", .str "Young customer looking for Instagram-worthy outfit"),
        ("customer_dialogue", .str "I need something that will look amazing in photos. What's your most Instagram-worthy piece?"),
        ("challenge", .str "Style consultation"),
        ("learning_outcome", .str "Provide fashion advice and styling suggestions")]]),
     ("Medium",
      [[("description", .str "Influencer wanting exclusive or limited edition items"),
        ("customer_dialogue", .str "Do you have anything exclusive that my followers haven't seen everywhere else?"),
        ("challenge", .str "Exclusivity and differentiation"),
        ("learning_outcome", .str "Position products as unique and desirable")]]),
     ("Hard",
      [[("description", .str "High-maintenance influencer with specific brand requirements"),
        ("customer_dialogue", .str "I only wear sustainable, ethically-made clothes that photograph well under studio lights. What can you show me?"),
        ("challenge", .str "Specific and demanding requirements"),
        ("learning_outcome", .str "Handle complex product specifications and customer demands")]])])]

/-- The fallback scenario of `get_scenario`'s `else` branch, stamped with
the requested persona and difficulty. -/
def fallback_scenario (persona difficulty : String) : Obj :=
  [("description", .str "Generic customer interaction"),
   ("customer_dialogue", .str "Hello, I'm looking for some clothes."),
   ("challenge", .str "General customer service"),
   ("learning_outcome", .str "Practice basic customer interaction"),
   ("persona", .str persona),
   ("difficulty", .str difficulty)]

/-- `ScenarioGenerator.get_scenario(persona, difficulty)`
(src/utils/scenario_generator.py lines 94-110), with the catalog state
passed (and returned) explicitly and `random.choice` modelled by the
injected draw `choice` (selecting index `choice % len`; on an empty
bucket `random.choice` raises `IndexError`). The chosen template dict is
mutated in place — Python's `scenario['persona'] = persona` writes
through the reference held inside `self.scenarios_db` — so the hit path
returns the updated catalog; the fallback path builds a fresh dict and
leaves the catalog untouched. -/
def get_scenario (db : Db) (persona difficulty : String) (choice : ℕ) :
    Except PyErr Obj × Db :=
  match db.lookup persona with
  | some byDifficulty =>
    match byDifficulty.lookup difficulty with
    | some scenarios =>
      if scenarios.isEmpty then (.error .indexError, db)
      else
        let i := choice % scenarios.length
        let scenario := scenarios.getD i []
        let stamped := dset (dset scenario "persona" (.str persona)) "difficulty" (.str difficulty)
        (.ok stamped, aset db persona (aset byDifficulty difficulty (scenarios.set i stamped)))
    | none => (.ok (fallback_scenario persona difficulty), db)
  | none => (.ok (fallback_scenario persona difficulty), db)

/-! ## Association-list helper lemmas -/

theorem lookup_mem {α : Type} {l : List (String × α)} {k : String} {v : α}
    (h : l.lookup k = some v) : (k, v) ∈ l := by
  induction l with
  | nil => simp at h
  | cons p t ih =>
    rcases p with ⟨k1, v1⟩
    rw [List.lookup_cons] at h
    by_cases hk : k = k1
    · subst hk
      rw [beq_self_eq_true] at h
      cases h
      exact List.mem_cons_self _ _
    · rw [beq_eq_false_iff_ne.mpr hk] at h
      exact List.mem_cons_of_mem _ (ih h)

theorem lookup_append {α : Type} (l m : List (String × α)) (k : String) :
    (l ++ m).lookup k = (l.lookup k).or (m.lookup k) := by
  induction l with
  | nil => simp
  | cons p t ih =>
    rcases p with ⟨k1, v1⟩
    rw [List.cons_append, List.lookup_cons, List.lookup_cons]
    cases hb : k == k1
    · simpa using ih
    · simp

theorem lookup_map_set {α : Type} (l : List (String × α)) (k : String) (v : α) :
    (l.map (fun p => if p.1 = k then (k, v) else p)).lookup k =
      if (l.lookup k).isSome then some v else none := by
  induction l with
  | nil => simp
  | cons p t ih =>
    rcases p with ⟨k1, v1⟩
    by_cases hk : k1 = k
    · subst hk
      simp [List.lookup_cons]
    · have hb : (k == k1) = false := beq_eq_false_iff_ne.mpr (fun h => hk h.symm)
      simp only [List.map_cons, if_neg hk, List.lookup_cons, hb, ih]

theorem lookup_map_set_ne {α : Type} (l : List (String × α)) (k : String) (v : α)
    {k' : String} (h : k' ≠ k) :
    (l.map (fun p => if p.1 = k then (k, v) else p)).lookup k' = l.lookup k' := by
  induction l with
  | nil => simp
  | cons p t ih =>
    rcases p with ⟨k1, v1⟩
    by_cases hk : k1 = k
    · subst hk
      have hb : (k' == k1) = false := beq_eq_false_iff_ne.mpr h
      simp [List.lookup_cons, hb, ih]
    · rw [List.map_cons, if_neg hk, List.lookup_cons, List.lookup_cons]
      cases hb : k' == k1
      · simpa using ih
      · simp

theorem lookup_aset_self {α : Type} (l : List (String × α)) (k : String) (v : α) :
    (aset l k v).lookup k = some v := by
  unfold aset
  split
  · rename_i h
    rw [lookup_map_set, if_pos h]
  · rename_i h
    have hn : l.lookup k = none := Option.not_isSome_iff_eq_none.mp h
    rw [lookup_append, hn]
    simp [List.lookup_cons]

theorem lookup_aset_ne {α : Type} (l : List (String × α)) (k : String) (v : α)
    {k' : String} (h : k' ≠ k) :
    (aset l k v).lookup k' = l.lookup k' := by
  unfold aset
  split
  · exact lookup_map_set_ne l k v h
  · rw [lookup_append]
    have hb : (k' == k) = false := beq_eq_false_iff_ne.mpr h
    have h1 : ([(k, v)] : List (String × α)).lookup k' = none := by
      simp [List.lookup_cons, hb]
    rw [h1]
    cases l.lookup k' <;> rfl

theorem dget_dset_self (o : Obj) (k : String) (v : JVal) :
    dget (dset o k v) k = some v :=
  lookup_aset_self o k v

theorem dget_dset_ne (o : Obj) (k : String) (v : JVal) {k' : String} (h : k' ≠ k) :
    dget (dset o k v) k' = dget o k' :=
  lookup_aset_ne o k v h

/-! ## Claims about the Response Evaluator (C1, C3) -/

/-- C1: the claim that every judge-service output yields an Evaluation whose
four dimension fields are integers in [1,5] (out-of-range values clamped,
missing or non-numeric ones defaulted to 3) is false on the code: a judge
reply that parses is returned verbatim by `evaluate_response`, so an
out-of-range accuracy of 7 flows through unchanged. -/
theorem C1_counterexample :
    ¬ specClamped (evaluate_response (Scenario.mk "d" "c" "Bargain Hunter" "Easy") "resp"
      (.ok [("accuracy", .num 7), ("application", .num 2), ("communication", .num 2),
            ("adaptability", .num 2), ("feedback", .str "ok"),
            ("suggestions", .arr ["a", "b"])])) := by
  decide

/-- C1 (amended): `evaluate_response` performs no clamping and no per-field
defaulting. A parsed judge reply is returned verbatim, whatever its dimension
values and whether or not the dimension keys are present; only when the judge
call or its JSON parse fails does the whole Evaluation degrade to the
neutral all-3 dict. -/
theorem C1_verbatim_or_neutral (scenario : Scenario) (user_response : String) :
    (∀ obj : Obj, evaluate_response scenario user_response (.ok obj) = obj) ∧
    (∀ e : String, evaluate_response scenario user_response (.error e) =
      [("accuracy", .num 3), ("application", .num 3), ("communication", .num 3),
       ("adaptability", .num 3),
       ("feedback", .str ("Error in evaluation: " ++ e)),
       ("suggestions", .arr ["Please try again", "Technical error occurred"])]) :=
  ⟨fun _ => rfl, fun _ => rfl⟩

/-- C3: when the judge call itself fails (timeout, network error, service
error or unparsable reply — any `.error e` of the modelled call),
`evaluate_response` never raises (it is total) and returns the Evaluation
with all four dimensions 3, a non-empty feedback string naming the failure,
and the two-item retry suggestion list. -/
theorem C3_judge_failure_degrades (scenario : Scenario) (user_response : String) (e : String) :
    dget (evaluate_response scenario user_response (.error e)) "accuracy" = some (.num 3) ∧
    dget (evaluate_response scenario user_response (.error e)) "application" = some (.num 3) ∧
    dget (evaluate_response scenario user_response (.error e)) "communication" = some (.num 3) ∧
    dget (evaluate_response scenario user_response (.error e)) "adaptability" = some (.num 3) ∧
    dget (evaluate_response scenario user_response (.error e)) "feedback" =
      some (.str ("Error in evaluation: " ++ e)) ∧
    ("Error in evaluation: " ++ e) ≠ "" ∧
    dget (evaluate_response scenario user_response (.error e)) "suggestions" =
      some (.arr ["Please try again", "Technical error occurred"]) := by
  refine ⟨rfl, rfl, rfl, rfl, rfl, ?_, rfl⟩
  intro hcontra
  have h1 := congrArg String.length hcontra
  rw [String.length_append] at h1
  have h2 : ("Error in evaluation: " : String).length = 21 := rfl
  have h3 : ("" : String).length = 0 := rfl
  rw [h2, h3] at h1
  omega

/-! ## Claims about the Scenario Synthesizer (C6, C8) -/

/-- C6: the claim that an unknown persona makes `generate_scenario` fail with
a `PersonaNotFoundError` exception is false on the code: the call returns
normally (an `Except.ok`, not an `Except.error`) with the in-band error dict
`{"error": "Persona not found"}`. -/
theorem C6_counterexample :
    generate_scenario [Persona.mk "Bargain Hunter" "profile"] "Ghost" "Easy" (.ok []) 0 =
      .ok [("error", .str "Persona not found")] := by
  rfl

/-- C6 (amended): for every persona name absent from the loaded persona set,
`generate_scenario` returns the dict `{"error": "Persona not found"}` as an
ordinary value — no exception is raised and no degraded Scenario is built. -/
theorem C6_unknown_persona_error_dict (personas : List Persona)
    (persona_name difficulty : String) (judge : Except String Obj) (rid : ℕ)
    (h : ∀ p ∈ personas, p.name ≠ persona_name) :
    generate_scenario personas persona_name difficulty judge rid =
      .ok [("error", .str "Persona not found")] := by
  unfold generate_scenario
  have hf : personas.find? (fun p => p.name = persona_name) = none := by
    rw [List.find?_eq_none]
    intro p hp
    simp [h p hp]
  rw [hf]

/-- C6 witness: `C6_unknown_persona_error_dict` applied to a concrete persona
list that does not contain the requested name. -/
theorem C6_unknown_persona_error_dict_witness :
    generate_scenario [Persona.mk "Bargain Hunter" "profile"] "Ghost" "Hard"
      (.error "timeout") 5 = .ok [("error", .str "Persona not found")] :=
  C6_unknown_persona_error_dict [Persona.mk "Bargain Hunter" "profile"] "Ghost" "Hard"
    (.error "timeout") 5 (by decide)

/-- C8: the claim that every Scenario produced by the synthesizer carries an
id, unique within the run, including on the degraded path, is false on the
code: the degraded Scenario built when the judge call fails carries no `id`
key at all (and the success path draws `random.randint(1000, 9999)`, which
is not unique). -/
theorem C8_counterexample :
    generate_scenario [Persona.mk "Bargain Hunter" "profile"] "Bargain Hunter" "Easy"
      (.error "timeout") 0 =
      .ok [("description", .str "Error generating scenario: timeout"),
           ("customer_dialogue", .str "Technical error occurred"),
           ("challenge", .str "System error"),
           ("learning_outcome", .str "Retry scenario generation"),
           ("persona", .str "Bargain Hunter"),
           ("difficulty", .str "Easy")] ∧
    dget [("description", .str "Error generating scenario: timeout"),
          ("customer_dialogue", .str "Technical error occurred"),
          ("challenge", .str "System error"),
          ("learning_outcome", .str "Retry scenario generation"),
          ("persona", .str "Bargain Hunter"),
          ("difficulty", .str "Easy")] "id" = none :=
  ⟨rfl, rfl⟩

/-- C8 (amended): on the success path `generate_scenario` stamps
`id = 1000 + rid % 9000`, an integer in [1000, 9999] that is random rather
than unique (two calls with draws 0 and 9000 return identical scenarios,
ids included), and the degraded path returns a Scenario with no id at all. -/
theorem C8_random_id_success_only (personas : List Persona)
    (persona_name difficulty : String) (obj : Obj) (rid : ℕ) (e : String)
    (h : (personas.find? (fun p => p.name = persona_name)).isSome) :
    (∃ result : Obj,
      generate_scenario personas persona_name difficulty (.ok obj) rid = .ok result ∧
      dget result "id" = some (.num (1000 + ((rid % 9000 : ℕ) : ℚ))) ∧
      (1000 : ℚ) ≤ 1000 + ((rid % 9000 : ℕ) : ℚ) ∧
      1000 + ((rid % 9000 : ℕ) : ℚ) ≤ 9999) ∧
    generate_scenario personas persona_name difficulty (.ok obj) 0 =
      generate_scenario personas persona_name difficulty (.ok obj) 9000 ∧
    (∃ degraded : Obj,
      generate_scenario personas persona_name difficulty (.error e) rid = .ok degraded ∧
      dget degraded "id" = none) := by
  obtain ⟨p, hp⟩ := Option.isSome_iff_exists.mp h
  have hmod : rid % 9000 ≤ 8999 := Nat.lt_succ_iff.mp (Nat.mod_lt _ (by norm_num))
  have hcast : ((rid % 9000 : ℕ) : ℚ) ≤ 8999 := by exact_mod_cast hmod
  have hnonneg : (0 : ℚ) ≤ ((rid % 9000 : ℕ) : ℚ) := by positivity
  have hsucc : ∃ result : Obj,
      generate_scenario personas persona_name difficulty (.ok obj) rid = .ok result ∧
      dget result "id" = some (.num (1000 + ((rid % 9000 : ℕ) : ℚ))) ∧
      (1000 : ℚ) ≤ 1000 + ((rid % 9000 : ℕ) : ℚ) ∧
      1000 + ((rid % 9000 : ℕ) : ℚ) ≤ 9999 := by
    refine ⟨dset (dset (dset obj "persona" (.str persona_name)) "difficulty" (.str difficulty))
        "id" (.num (1000 + ((rid % 9000 : ℕ) : ℚ))),
      ?_, dget_dset_self _ _ _, by linarith, by linarith⟩
    unfold generate_scenario
    rw [hp]
  have hmid : generate_scenario personas persona_name difficulty (.ok obj) 0 =
      generate_scenario personas persona_name difficulty (.ok obj) 9000 := by
    unfold generate_scenario
    rw [hp]
  have hdeg : ∃ degraded : Obj,
      generate_scenario personas persona_name difficulty (.error e) rid = .ok degraded ∧
      dget degraded "id" = none := by
    unfold generate_scenario
    rw [hp]
    exact ⟨_, rfl, rfl⟩
  exact ⟨hsucc, hmid, hdeg⟩

/-- C8 witness: `C8_random_id_success_only` at a concrete persona list, draw
and failure message. -/
theorem C8_random_id_success_only_witness :
    (∃ result : Obj,
      generate_scenario [Persona.mk "Bargain Hunter" "profile"] "Bargain Hunter" "Easy"
        (.ok []) 3 = .ok result ∧
      dget result "id" = some (.num (1000 + ((3 % 9000 : ℕ) : ℚ))) ∧
      (1000 : ℚ) ≤ 1000 + ((3 % 9000 : ℕ) : ℚ) ∧
      1000 + ((3 % 9000 : ℕ) : ℚ) ≤ 9999) ∧
    generate_scenario [Persona.mk "Bargain Hunter" "profile"] "Bargain Hunter" "Easy"
      (.ok []) 0 =
      generate_scenario [Persona.mk "Bargain Hunter" "profile"] "Bargain Hunter" "Easy"
        (.ok []) 9000 ∧
    (∃ degraded : Obj,
      generate_scenario [Persona.mk "Bargain Hunter" "profile"] "Bargain Hunter" "Easy"
        (.error "timeout") 3 = .ok degraded ∧
      dget degraded "id" = none) :=
  C8_random_id_success_only [Persona.mk "Bargain Hunter" "profile"] "Bargain Hunter" "Easy"
    [] 3 "timeout" (by decide)

/-! ## Claim C2: the adaptive difficulty controller -/

theorem filterMap_map_some_eq_map (l : List (List (String × ℚ)))
    (h : ∀ e ∈ l, e.length = 4) :
    (l.map some).filterMap rowScore
    = l.map (fun e => (e.map (fun p => p.2)).sum / 4) := by
  induction l with
  | nil => rfl
  | cons x t ih =>
    have h4 := h x (List.mem_cons_self x t)
    have hne : x.isEmpty = false := by
      cases x
      · simp at h4
      · rfl
    have ht := ih (fun e he => h e (List.mem_cons_of_mem x he))
    simp only [List.map_cons, List.filterMap_cons, rowScore, hne, Bool.false_eq_true, if_false,
      ht, h4]
    norm_num

/-- C2: `get_adaptive_difficulty` coincides with the spec's controller on
every well-formed history (each evaluation a four-dimension score dict) and
every current difficulty on the ladder: window = first 5 fetched rows,
avgPerformance = mean of the per-evaluation means, advance one level iff
avgPerformance ≥ 4.5 and current ≠ Expert, regress one level iff
avgPerformance < 3.0 and current ≠ Easy, otherwise (and on an empty
history) hold — with the ladder clamped at both ends and no exception
raised. -/
theorem C2_adaptive_difficulty_matches_spec (history : List (List (String × ℚ)))
    (current : String) (hcur : current ∈ difficulty_levels)
    (hdims : ∀ e ∈ history, e.length = 4) :
    get_adaptive_difficulty (history.map some) current =
      .ok (nextDifficulty_claim history current) := by
  have hwdims : ∀ e ∈ history.take 5, e.length = 4 :=
    fun e he => hdims e (List.mem_of_mem_take he)
  simp only [get_adaptive_difficulty, nextDifficulty_claim]
  rw [(List.map_take some history 5).symm]
  generalize hg : history.take 5 = w
  rw [hg] at hwdims
  have hfm := filterMap_map_some_eq_map w hwdims
  rcases w with _ | ⟨x, t⟩
  · rfl
  · rw [hfm]
    simp only [List.map_cons, List.isEmpty_cons, Bool.false_eq_true, if_false,
      List.length_map, List.length_cons]
    split_ifs with h1 h2
    · simp only [difficulty_levels, List.mem_cons, List.not_mem_nil, or_false] at hcur
      rcases hcur with rfl | rfl | rfl | rfl
      · rfl
      · rfl
      · rfl
      · exact absurd rfl h1.2
    · simp only [difficulty_levels, List.mem_cons, List.not_mem_nil, or_false] at hcur
      rcases hcur with rfl | rfl | rfl | rfl
      · exact absurd rfl h2.2
      · rfl
      · rfl
      · rfl
    · rfl

/-- C2 witness: five evaluations of straight 5s at current difficulty Medium
advance to Hard, via `C2_adaptive_difficulty_matches_spec`. -/
theorem C2_adaptive_difficulty_matches_spec_witness :
    get_adaptive_difficulty
      ([[("accuracy", (5 : ℚ)), ("application", 5), ("communication", 5), ("adaptability", 5)],
        [("accuracy", 5), ("application", 5), ("communication", 5), ("adaptability", 5)],
        [("accuracy", 5), ("application", 5), ("communication", 5), ("adaptability", 5)],
        [("accuracy", 5), ("application", 5), ("communication", 5), ("adaptability", 5)],
        [("accuracy", 5), ("application", 5), ("communication", 5), ("adaptability", 5)]].map some)
      "Medium" = .ok "Hard" := by
  have hval : nextDifficulty_claim
      [[("accuracy", (5 : ℚ)), ("application", 5), ("communication", 5), ("adaptability", 5)],
        [("accuracy", 5), ("application", 5), ("communication", 5), ("adaptability", 5)],
        [("accuracy", 5), ("application", 5), ("communication", 5), ("adaptability", 5)],
        [("accuracy", 5), ("application", 5), ("communication", 5), ("adaptability", 5)],
        [("accuracy", 5), ("application", 5), ("communication", 5), ("adaptability", 5)]]
      "Medium" = "Hard" := by
    norm_num [nextDifficulty_claim, levelUp]
    decide
  rw [C2_adaptive_difficulty_matches_spec _ "Medium" (by decide) (by decide), hval]

/-! ## Claims about the session aggregator (C4, C5, C9) -/

/-- C4: for a non-empty session history the improvement rate reported by
`get_user_performance` is 0 when fewer than 4 sessions exist (no division is
attempted), and `((recentAvg - earlyAvg) / earlyAvg) * 100` over the
`count / 4`-sized first and last quartiles otherwise (whenever that formula's
denominator `earlyAvg` is non-zero, so that the division is defined). -/
theorem C4_improvement_rate (sessions : List SessionRow) (hne : sessions ≠ []) :
    (sessions.length < 4 → ∃ p : Performance, get_user_performance sessions = some p ∧
      p.improvement_rate = 0) ∧
    (4 ≤ sessions.length → earlyAvg sessions ≠ 0 →
      ∃ p : Performance, get_user_performance sessions = some p ∧
        p.improvement_rate =
          ((recentAvg sessions - earlyAvg sessions) / earlyAvg sessions) * 100) := by
  have hie : sessions.isEmpty = false := by
    cases sessions
    · exact absurd rfl hne
    · rfl
  constructor
  · intro hlt
    unfold get_user_performance get_user_performance_core
    rw [hie]
    simp only [Bool.false_eq_true, if_false]
    rw [if_neg (by omega : ¬ 4 ≤ sessions.length)]
    exact ⟨_, rfl, rfl⟩
  · intro hge hnz
    unfold get_user_performance get_user_performance_core
    rw [hie]
    simp only [Bool.false_eq_true, if_false]
    rw [if_pos hge, if_neg hnz]
    exact ⟨_, rfl, rfl⟩

/-- C4 witness: the spec's example — 8 sessions whose first-quarter mean
total is 2.0 and last-quarter mean total is 4.0 — reports an improvement
rate of +100, via `C4_improvement_rate`. -/
theorem C4_improvement_rate_witness :
    ∃ p : Performance,
      get_user_performance
        [⟨some 2, [], "t1"⟩, ⟨some 2, [], "t2"⟩, ⟨some 3, [], "t3"⟩, ⟨some 3, [], "t4"⟩,
         ⟨some 3, [], "t5"⟩, ⟨some 3, [], "t6"⟩, ⟨some 4, [], "t7"⟩, ⟨some 4, [], "t8"⟩]
        = some p ∧
      p.improvement_rate = 100 := by
  obtain ⟨p, hp, hrate⟩ :=
    (C4_improvement_rate
      [⟨some 2, [], "t1"⟩, ⟨some 2, [], "t2"⟩, ⟨some 3, [], "t3"⟩, ⟨some 3, [], "t4"⟩,
       ⟨some 3, [], "t5"⟩, ⟨some 3, [], "t6"⟩, ⟨some 4, [], "t7"⟩, ⟨some 4, [], "t8"⟩]
      (List.cons_ne_nil _ _)).2
      (by norm_num)
      (by norm_num [earlyAvg, quartileSize, totalScoreOf])
  refine ⟨p, hp, ?_⟩
  rw [hrate]
  norm_num [earlyAvg, recentAvg, quartileSize, totalScoreOf]

/-- C5: contrary to the claim, a history of at least 4 evaluations whose
first-quarter mean total score is 0 does not short-circuit the improvement
rate to 0: the division `(recent_avg - early_avg) / early_avg` raises
`ZeroDivisionError` inside the `try` block, and the surrounding `except`
discards the entire performance dict (`return {}`), so the caller gets an
empty summary instead of one with rate 0. -/
theorem C5_zero_early_avg_is_not_short_circuited :
    get_user_performance_core
      [⟨some 0, [], "t1"⟩, ⟨some 0, [], "t2"⟩, ⟨some 4, [], "t3"⟩, ⟨some 5, [], "t4"⟩] =
      .error .zeroDivisionError ∧
    get_user_performance
      [⟨some 0, [], "t1"⟩, ⟨some 0, [], "t2"⟩, ⟨some 4, [], "t3"⟩, ⟨some 5, [], "t4"⟩] =
      none := by
  have hcore : get_user_performance_core
      [⟨some 0, [], "t1"⟩, ⟨some 0, [], "t2"⟩, ⟨some 4, [], "t3"⟩, ⟨some 5, [], "t4"⟩] =
      .error .zeroDivisionError := by
    have h0 : earlyAvg
        [⟨some 0, [], "t1"⟩, ⟨some 0, [], "t2"⟩, ⟨some 4, [], "t3"⟩, ⟨some 5, [], "t4"⟩] = 0 := by
      norm_num [earlyAvg, quartileSize, totalScoreOf]
    unfold get_user_performance_core
    rw [h0]
    norm_num
  exact ⟨hcore, by unfold get_user_performance; rw [hcore]⟩

/-- C9: the Controller indeed tolerates malformed rows (null or empty score
dicts are skipped; no exception), but the Aggregator does not: a history of
4 rows all missing `total_score` makes the first-quarter mean 0, the
improvement-rate division raises `ZeroDivisionError`, and the whole summary
is discarded (`{}` is returned) rather than the malformed rows contributing
0 to the totals of a produced summary. -/
theorem C9_malformed_rows_crash_aggregator :
    get_adaptive_difficulty [some [], none, some [], none] "Medium" = .ok "Medium" ∧
    get_user_performance_core
      [⟨none, [], "t1"⟩, ⟨none, [], "t2"⟩, ⟨none, [], "t3"⟩, ⟨none, [], "t4"⟩] =
      .error .zeroDivisionError ∧
    get_user_performance
      [⟨none, [], "t1"⟩, ⟨none, [], "t2"⟩, ⟨none, [], "t3"⟩, ⟨none, [], "t4"⟩] = none := by
  have hcore : get_user_performance_core
      [⟨none, [], "t1"⟩, ⟨none, [], "t2"⟩, ⟨none, [], "t3"⟩, ⟨none, [], "t4"⟩] =
      .error .zeroDivisionError := by
    have h0 : earlyAvg
        [⟨none, [], "t1"⟩, ⟨none, [], "t2"⟩, ⟨none, [], "t3"⟩, ⟨none, [], "t4"⟩] = 0 := by
      norm_num [earlyAvg, quartileSize, totalScoreOf]
    unfold get_user_performance_core
    rw [h0]
    norm_num
  refine ⟨rfl, hcore, by unfold get_user_performance; rw [hcore]⟩

/-! ## Claims about the scenario catalog (C7, C10) -/

theorem getD_set_self {α : Type} (l : List α) (i : ℕ) (h : i < l.length) (a d : α) :
    (l.set i a).getD i d = a := by
  simp [List.getD, List.getElem?_set_self, h]

theorem getD_mem {α : Type} (l : List α) (i : ℕ) (h : i < l.length) (d : α) :
    l.getD i d ∈ l := by
  simp [List.getD, List.getElem?_eq_getElem h]

/-- Catalog shape fact: every bucket of the load-time `scenarios_db` is
non-empty. -/
theorem scenarios_db_buckets_nonempty :
    ∀ pe ∈ scenarios_db, ∀ de ∈ pe.2, de.2.isEmpty = false := by
  decide

/-- Catalog shape fact: no load-time template carries a `persona` or
`difficulty` key (they are stamped only by `get_scenario`). -/
theorem scenarios_db_templates_unstamped :
    ∀ pe ∈ scenarios_db, ∀ de ∈ pe.2, ∀ t ∈ de.2,
      dget t "persona" = none ∧ dget t "difficulty" = none := by
  decide

/-- C7: on any catalog state whose buckets are all non-empty (as the
load-time catalog is, and as every state reachable through the class's
methods remains), `get_scenario` never raises: it returns a Scenario
stamped with the requested persona and difficulty, and when the persona or
difficulty key is absent that Scenario is the fallback whose challenge is
"General customer service". -/
theorem C7_lookup_never_raises (db : Db) (persona difficulty : String) (choice : ℕ)
    (hbuckets : ∀ pe ∈ db, ∀ de ∈ pe.2, de.2.isEmpty = false) :
    ∃ s : Obj, ∃ dbAfter : Db,
      get_scenario db persona difficulty choice = (.ok s, dbAfter) ∧
      dget s "persona" = some (.str persona) ∧
      dget s "difficulty" = some (.str difficulty) ∧
      ((db.lookup persona).bind (fun m => m.lookup difficulty) = none →
        dget s "challenge" = some (.str "General customer service")) := by
  unfold get_scenario
  cases hdb : db.lookup persona with
  | none => exact ⟨fallback_scenario persona difficulty, db, rfl, rfl, rfl, fun _ => rfl⟩
  | some m =>
    dsimp only
    cases hm : m.lookup difficulty with
    | none => exact ⟨fallback_scenario persona difficulty, db, rfl, rfl, rfl, fun _ => rfl⟩
    | some bucket =>
      have hbe : bucket.isEmpty = false :=
        hbuckets (persona, m) (lookup_mem hdb) (difficulty, bucket) (lookup_mem hm)
      dsimp only
      rw [hbe]
      simp only [Bool.false_eq_true, if_false]
      refine ⟨_, _, rfl, ?_, dget_dset_self _ _ _, fun hcontra => ?_⟩
      · rw [dget_dset_ne _ _ _ (by decide : ("persona" : String) ≠ "difficulty"),
          dget_dset_self]
      · have hms : List.lookup difficulty m = none := hcontra
        rw [hm] at hms
        cases hms

/-- C7 witness: `C7_lookup_never_raises` on the load-time catalog at a
present (persona, difficulty) pair. -/
theorem C7_lookup_never_raises_witness :
    ∃ s : Obj, ∃ dbAfter : Db,
      get_scenario scenarios_db "Trend-Seeking Influencer" "Medium" 0 = (.ok s, dbAfter) ∧
      dget s "persona" = some (.str "Trend-Seeking Influencer") ∧
      dget s "difficulty" = some (.str "Medium") ∧
      ((scenarios_db.lookup "Trend-Seeking Influencer").bind
          (fun m => m.lookup "Medium") = none →
        dget s "challenge" = some (.str "General customer service")) :=
  C7_lookup_never_raises scenarios_db "Trend-Seeking Influencer" "Medium" 0
    scenarios_db_buckets_nonempty

/-- C10: a hit on the catalog mutates the stored state. For any (persona,
difficulty) whose bucket exists in the load-time catalog, `get_scenario`
returns a Scenario `s` and a new catalog in which the selected template
slot now holds `s` itself (the shared object, observable as state
equality), which differs from the load-time template at that slot (the
load-time templates carry no persona/difficulty keys) — so the bucket no
longer equals its load-time value; and for any persona/difficulty pair
absent from the catalog, the fallback path returns a fresh record and
leaves the catalog unchanged. -/
theorem C10_lookup_mutates_catalog (persona difficulty : String) (choice : ℕ)
    (bucket : List Obj)
    (hjoin : (scenarios_db.lookup persona).bind (fun m => m.lookup difficulty) = some bucket) :
    ∃ s : Obj, ∃ dbAfter : Db,
      get_scenario scenarios_db persona difficulty choice = (.ok s, dbAfter) ∧
      (dbAfter.lookup persona).bind (fun m => m.lookup difficulty) =
        some (bucket.set (choice % bucket.length) s) ∧
      (bucket.set (choice % bucket.length) s).getD (choice % bucket.length) [] = s ∧
      s ≠ bucket.getD (choice % bucket.length) [] ∧
      bucket.set (choice % bucket.length) s ≠ bucket ∧
      (∀ p2 d2 : String, (scenarios_db.lookup p2).bind (fun m => m.lookup d2) = none →
        get_scenario scenarios_db p2 d2 choice =
          (.ok (fallback_scenario p2 d2), scenarios_db)) := by
  have hfall : ∀ p2 d2 : String,
      (scenarios_db.lookup p2).bind (fun m => m.lookup d2) = none →
      get_scenario scenarios_db p2 d2 choice =
        (.ok (fallback_scenario p2 d2), scenarios_db) := by
    intro p2 d2 hnone
    unfold get_scenario
    cases hdb2 : scenarios_db.lookup p2 with
    | none => rfl
    | some m2 =>
      dsimp only
      rw [hdb2] at hnone
      have hm2 : List.lookup d2 m2 = none := hnone
      rw [hm2]
  cases hdb : scenarios_db.lookup persona with
  | none =>
    rw [hdb] at hjoin
    cases hjoin
  | some m =>
    rw [hdb] at hjoin
    have hm : List.lookup difficulty m = some bucket := hjoin
    have hbe : bucket.isEmpty = false :=
      scenarios_db_buckets_nonempty (persona, m) (lookup_mem hdb)
        (difficulty, bucket) (lookup_mem hm)
    have hpos : 0 < bucket.length := by
      cases bucket
      · simp at hbe
      · simp
    have hlt : choice % bucket.length < bucket.length := Nat.mod_lt _ hpos
    have horig :=
      scenarios_db_templates_unstamped (persona, m) (lookup_mem hdb)
        (difficulty, bucket) (lookup_mem hm)
        (bucket.getD (choice % bucket.length) []) (getD_mem bucket _ hlt [])
    refine ⟨dset (dset (bucket.getD (choice % bucket.length) []) "persona" (.str persona))
        "difficulty" (.str difficulty),
      aset scenarios_db persona (aset m difficulty
        (bucket.set (choice % bucket.length)
          (dset (dset (bucket.getD (choice % bucket.length) []) "persona" (.str persona))
            "difficulty" (.str difficulty)))),
      ?_, ?_, ?_, ?_, ?_, hfall⟩
    · unfold get_scenario
      rw [hdb]
      dsimp only
      rw [hm]
      dsimp only
      rw [hbe]
      simp only [Bool.false_eq_true, if_false]
    · rw [lookup_aset_self]
      exact lookup_aset_self _ _ _
    · exact getD_set_self bucket _ hlt _ _
    · intro heq
      have hs : dget (dset (dset (bucket.getD (choice % bucket.length) []) "persona"
          (.str persona)) "difficulty" (.str difficulty)) "difficulty" =
          some (.str difficulty) := dget_dset_self _ _ _
      rw [heq, horig.2] at hs
      cases hs
    · intro heq
      have h1 : (bucket.set (choice % bucket.length)
          (dset (dset (bucket.getD (choice % bucket.length) []) "persona" (.str persona))
            "difficulty" (.str difficulty))).getD (choice % bucket.length) [] =
          dset (dset (bucket.getD (choice % bucket.length) []) "persona" (.str persona))
            "difficulty" (.str difficulty) := getD_set_self bucket _ hlt _ _
      rw [heq] at h1
      have hs : dget (dset (dset (bucket.getD (choice % bucket.length) []) "persona"
          (.str persona)) "difficulty" (.str difficulty)) "difficulty" =
          some (.str difficulty) := dget_dset_self _ _ _
      rw [← h1, horig.2] at hs
      cases hs

/-- C10 witness: `C10_lookup_mutates_catalog` at the (Overwhelmed Parent,
Hard) bucket of the load-time catalog with draw 0, and the fallback clause
instantiated at an unknown persona. -/
theorem C10_lookup_mutates_catalog_witness :
    ∃ s : Obj, ∃ dbAfter : Db,
      get_scenario scenarios_db "Overwhelmed Parent" "Hard" 0 = (.ok s, dbAfter) ∧
      (dbAfter.lookup "Overwhelmed Parent").bind (fun m => m.lookup "Hard") =
        some (([[("description", JVal.str "Frustrated parent with budget constraints and picky children"),
           ("customer_dialogue", JVal.str "My daughter hates everything I pick, my budget is tight, and we need clothes today. This is impossible!"),
           ("challenge", JVal.str "Managing stress and constraints"),
           ("learning_outcome", JVal.str "Handle emotionally charged situations with empathy")]] : List Obj).set
          (0 % ([[("description", JVal.str "Frustrated parent with budget constraints and picky children"),
           ("customer_dialogue", JVal.str "My daughter hates everything I pick, my budget is tight, and we need clothes today. This is impossible!"),
           ("challenge", JVal.str "Managing stress and constraints"),
           ("learning_outcome", JVal.str "Handle emotionally charged situations with empathy")]] : List Obj).length) s) ∧
      (([[("description", JVal.str "Frustrated parent with budget constraints and picky children"),
         ("customer_dialogue", JVal.str "My daughter hates everything I pick, my budget is tight, and we need clothes today. This is impossible!"),
         ("challenge", JVal.str "Managing stress and constraints"),
         ("learning_outcome", JVal.str "Handle emotionally charged situations with empathy")]] : List Obj).set
        (0 % ([[("description", JVal.str "Frustrated parent with budget constraints and picky children"),
         ("customer_dialogue", JVal.str "My daughter hates everything I pick, my budget is tight, and we need clothes today. This is impossible!"),
         ("challenge", JVal.str "Managing stress and constraints"),
         ("learning_outcome", JVal.str "Handle emotionally charged situations with empathy")]] : List Obj).length) s).getD
        (0 % ([[("description", JVal.str "Frustrated parent with budget constraints and picky children"),
         ("customer_dialogue", JVal.str "My daughter hates everything I pick, my budget is tight, and we need clothes today. This is impossible!"),
         ("challenge", JVal.str "Managing stress and constraints"),
         ("learning_outcome", JVal.str "Handle emotionally charged situations with empathy")]] : List Obj).length) [] = s ∧
      s ≠ ([[("description", JVal.str "Frustrated parent with budget constraints and picky children"),
         ("customer_dialogue", JVal.str "My daughter hates everything I pick, my budget is tight, and we need clothes today. This is impossible!"),
         ("challenge", JVal.str "Managing stress and constraints"),
         ("learning_outcome", JVal.str "Handle emotionally charged situations with empathy")]] : List Obj).getD
        (0 % ([[("description", JVal.str "Frustrated parent with budget constraints and picky children"),
         ("customer_dialogue", JVal.str "My daughter hates everything I pick, my budget is tight, and we need clothes today. This is impossible!"),
         ("challenge", JVal.str "Managing stress and constraints"),
         ("learning_outcome", JVal.str "Handle emotionally charged situations with empathy")]] : List Obj).length) [] ∧
      ([[("description", JVal.str "Frustrated parent with budget constraints and picky children"),
         ("customer_dialogue", JVal.str "My daughter hates everything I pick, my budget is tight, and we need clothes today. This is impossible!"),
         ("challenge", JVal.str "Managing stress and constraints"),
         ("learning_outcome", JVal.str "Handle emotionally charged situations with empathy")]] : List Obj).set
        (0 % ([[("description", JVal.str "Frustrated parent with budget constraints and picky children"),
         ("customer_dialogue", JVal.str "My daughter hates everything I pick, my budget is tight, and we need clothes today. This is impossible!"),
         ("challenge", JVal.str "Managing stress and constraints"),
         ("learning_outcome", JVal.str "Handle emotionally charged situations with empathy")]] : List Obj).length) s ≠
        [[("description", JVal.str "Frustrated parent with budget constraints and picky children"),
         ("customer_dialogue", JVal.str "My daughter hates everything I pick, my budget is tight, and we need clothes today. This is impossible!"),
         ("challenge", JVal.str "Managing stress and constraints"),
         ("learning_outcome", JVal.str "Handle emotionally charged situations with empathy")]] ∧
      get_scenario scenarios_db "Ghost Persona" "Easy" 0 =
        (.ok (fallback_scenario "Ghost Persona" "Easy"), scenarios_db) := by
  obtain ⟨s, dbAfter, h1, h2, h3, h4, h5, h6⟩ :=
    C10_lookup_mutates_catalog "Overwhelmed Parent" "Hard" 0
      [[("description", JVal.str "Frustrated parent with budget constraints and picky children"),
        ("customer_dialogue", JVal.str "My daughter hates everything I pick, my budget is tight, and we need clothes today. This is impossible!"),
        ("challenge", JVal.str "Managing stress and constraints"),
        ("learning_outcome", JVal.str "Handle emotionally charged situations with empathy")]]
      rfl
  exact ⟨s, dbAfter, h1, h2, h3, h4, h5, h6 "Ghost Persona" "Easy" rfl⟩
